import Mathlib

/-!
Shallow embedding of the Product Discovery & Interaction Engine of the
MERN marketplace repository.

Sources embedded here:
- `models/Product.js` (schema validators, instance methods `incrementViews`,
  `incrementLikes`, `decrementLikes`)
- `models/User.js` (the `likedProducts` array)
- `controllers/productController.js` (`addProduct`, `getProducts`,
  `getProductById`, `searchProducts`, `updateProduct`, `deleteProduct`)
- `controllers/userController.js` (`likeProducts`)
- `middleware/auth.js` (`authenticateToken` sets `req.user.userId := user._id`,
  a BSON ObjectId instance)
- `lib/validations.js` (`searchSchema`)

Numbers are modelled as rationals, identifiers as strings, the MongoDB
collection as a Lean list.  JavaScript dynamic typing matters in one place:
the controllers compare `product.addedBy.toString()` (a string) against
`req.user.userId` (an ObjectId instance) with strict `!==`; strict equality
between values of different runtime types is always false, which the
embedding models with a small tagged-value type.
-/

/-- A JavaScript runtime value as it appears in the identifier comparisons of
the controllers: either a primitive string or a BSON ObjectId instance
(carrying its hex representation). -/
inductive JsVal where
  | str (s : String)
  | oid (s : String)
deriving DecidableEq

/-- JavaScript strict equality of a string `s` against an arbitrary value `v`
(`s === v`): true only when `v` is a string with the same characters.  A
string is never strictly equal to an ObjectId instance, whatever its hex
content. -/
def jsStrictEqStr (s : String) : JsVal → Bool
  | .str t => s == t
  | .oid _ => false


/-!
Rational arithmetic helpers.  Batteries marks `Rat.mul`, `Rat.add`, `Rat.sub`
and `Rat.inv` `@[irreducible]`, which blocks kernel evaluation of concrete
instances; the helpers below compute the same values through `mkRat`, which
does reduce, and are proved equal to the ordinary operations.
-/

/-- Product of two rationals, computed through `mkRat`. -/
def qMul (a b : ℚ) : ℚ := mkRat (a.num * b.num) (a.den * b.den)

/-- Difference of two rationals, computed through `mkRat`. -/
def qSub (a b : ℚ) : ℚ := mkRat (a.num * b.den - b.num * a.den) (a.den * b.den)

/-- Absolute value of a rational. -/
def qAbs (a : ℚ) : ℚ := if a.num < 0 then -a else a

/-- GeoJSON point stored in `Product.pLoc`: `coordinates = [longitude, latitude]`. -/
structure GeoPoint where
  long : ℚ
  lat : ℚ
deriving DecidableEq

/-- A stored Product document (models/Product.js).  `addedBy` holds the hex
string of the owner's ObjectId; `createdAt` is an abstract timestamp used for
`sort({ createdAt: -1 })`. -/
structure Product where
  id : String
  pname : String
  pdesc : String
  price : ℚ
  category : String
  pimage : String
  addedBy : String
  status : String
  condition : String
  pLoc : GeoPoint
  likesCount : Int
  viewsCount : Int
  createdAt : Nat
deriving DecidableEq

/-- A stored User document restricted to the fields the interaction engine
touches (models/User.js). -/
structure User where
  id : String
  likedProducts : List String
  isActive : Bool := true
deriving DecidableEq

/-- middleware/auth.js lines 52-56: `req.user.userId := user._id`, an ObjectId
instance (not a string). -/
def authUserId (u : User) : JsVal := .oid u.id

/-- Category enum of the product schema. -/
def categoryEnum : List String :=
  ["Electronics", "Clothing", "Books", "Home & Garden", "Sports", "Vehicles", "Other"]

/-- Status enum of the product schema. -/
def statusEnum : List String := ["active", "sold", "inactive"]

/-- Condition enum of the product schema. -/
def conditionEnum : List String := ["new", "like-new", "good", "fair", "poor"]

/-- The `coordinates` validator of `pLoc` in models/Product.js:
longitude in [-180, 180], latitude in [-90, 90].  (The length-2 check of the
source is forced by the `GeoPoint` structure.) -/
def coordsValid (g : GeoPoint) : Bool :=
  (-180 ≤ g.long) && (g.long ≤ 180) && (-90 ≤ g.lat) && (g.lat ≤ 90)

/-- Full-document validation run by mongoose on `save()` and on insert:
required strings non-empty, maxlength bounds, `price` min 0.01, enums, and the
coordinate validator.  `likesCount` and `viewsCount` carry no validator in the
schema. -/
def productValidate (p : Product) : Bool :=
  (p.pname ≠ "") && (p.pname.length ≤ 100) &&
  (p.pdesc ≠ "") && (p.pdesc.length ≤ 500) &&
  (mkRat 1 100 ≤ p.price) &&  -- min: 0.01
  categoryEnum.contains p.category &&
  (p.pimage ≠ "") &&
  (p.addedBy ≠ "") &&
  coordsValid p.pLoc &&
  statusEnum.contains p.status &&
  conditionEnum.contains p.condition

/-- Mongoose casting rule for ObjectId: a 24-character hex string (or any
12-character string) casts; anything else raises a CastError. -/
def isHexDigit (c : Char) : Bool :=
  c.isDigit || (('a' ≤ c) && (c ≤ 'f')) || (('A' ≤ c) && (c ≤ 'F'))

/-- Whether a path-parameter string casts to an ObjectId. -/
def validObjectId (s : String) : Bool :=
  (s.length == 24 && s.data.all isHexDigit) || s.length == 12

/-- Errors raised by the storage layer. -/
inductive MongoErr where
  | validationErr
  | castErr
deriving DecidableEq

/-- The HTTP-level outcomes produced by the controllers' response envelopes. -/
inductive ApiResp (α : Type) where
  | ok (value : α)
  | created (value : α)
  | badRequest (message : String)
  | forbidden (message : String)
  | notFound (message : String)
  | validationFailed
  | internalErr
deriving DecidableEq

/-- The HTTP status code each controller attaches to its response. -/
def ApiResp.statusCode : ApiResp α → Nat
  | .ok _ => 200
  | .created _ => 201
  | .badRequest _ => 400
  | .forbidden _ => 403
  | .notFound _ => 404
  | .validationFailed => 400
  | .internalErr => 500

/-- The product collection. -/
abbrev Catalog := List Product

/-- `Product.findById` after a successful cast: first document with the id. -/
def findProduct (st : Catalog) (pid : String) : Option Product :=
  st.find? (fun p => p.id == pid)

/-- Overwrite the stored document(s) with id `p'.id` by `p'`. -/
def setProduct (st : Catalog) (p' : Product) : Catalog :=
  st.map (fun p => if p.id == p'.id then p' else p)

/-- `document.save()`: runs full schema validation, then writes. -/
def saveProduct (st : Catalog) (p' : Product) : Except MongoErr Catalog :=
  if productValidate p' then .ok (setProduct st p') else .error .validationErr

/-- `Product.findById(pid)` including the ObjectId cast step. -/
def findByIdResult (st : Catalog) (pid : String) : Except MongoErr (Option Product) :=
  if validObjectId pid then .ok (findProduct st pid) else .error .castErr

/-- `User.findById` (the authenticated userId always casts, it came from a
stored user's `_id`). -/
def findUser (us : List User) (uid : String) : Option User :=
  us.find? (fun u => u.id == uid)

/-- Overwrite the stored user(s) with id `u'.id` by `u'`. -/
def setUser (us : List User) (u' : User) : List User :=
  us.map (fun u => if u.id == u'.id then u' else u)

/-- A PUT request body for `updateProduct` (productController.js lines 362-411).
`mongoId` stands for the `_id` key of the JSON body.  Every field is optional:
an absent field is simply not part of the `$set`. -/
structure UpdatePayload where
  pname : Option String := none
  pdesc : Option String := none
  price : Option ℚ := none
  category : Option String := none
  pimage : Option String := none
  status : Option String := none
  condition : Option String := none
  pLoc : Option GeoPoint := none
  likesCount : Option Int := none
  viewsCount : Option Int := none
  mongoId : Option String := none
  addedBy : Option String := none
  createdAt : Option Nat := none
  updatedAt : Option Nat := none
deriving DecidableEq

/-- productController.js lines 386-389: `delete updates._id; delete
updates.addedBy; delete updates.createdAt; delete updates.updatedAt`.
Note that `likesCount` and `viewsCount` are NOT removed. -/
def stripImmutable (u : UpdatePayload) : UpdatePayload :=
  { u with mongoId := none, addedBy := none, createdAt := none, updatedAt := none }

/-- Mongoose update validators (`runValidators: true` on `findByIdAndUpdate`):
each field present in the `$set` payload is checked against its own schema
validators; fields absent from the payload are not re-validated.
`likesCount`/`viewsCount` carry no validators. -/
def updateValidatorsPass (u : UpdatePayload) : Bool :=
  (match u.pname with | none => true | some s => (s ≠ "") && (s.length ≤ 100)) &&
  (match u.pdesc with | none => true | some s => (s ≠ "") && (s.length ≤ 500)) &&
  (match u.price with | none => true | some x => mkRat 1 100 ≤ x) &&  -- min: 0.01
  (match u.category with | none => true | some c => categoryEnum.contains c) &&
  (match u.pimage with | none => true | some s => s ≠ "") &&
  (match u.status with | none => true | some s => statusEnum.contains s) &&
  (match u.condition with | none => true | some s => conditionEnum.contains s) &&
  (match u.pLoc with | none => true | some g => coordsValid g) &&
  (match u.addedBy with | none => true | some s => s ≠ "")

/-- `$set` application of a plain update object: each present field overwrites
the stored one; `_id` cannot be modified by `findByIdAndUpdate`. -/
def applyUpdate (p : Product) (u : UpdatePayload) : Product :=
  { p with
    pname := u.pname.getD p.pname
    pdesc := u.pdesc.getD p.pdesc
    price := u.price.getD p.price
    category := u.category.getD p.category
    pimage := u.pimage.getD p.pimage
    status := u.status.getD p.status
    condition := u.condition.getD p.condition
    pLoc := u.pLoc.getD p.pLoc
    likesCount := u.likesCount.getD p.likesCount
    viewsCount := u.viewsCount.getD p.viewsCount
    addedBy := u.addedBy.getD p.addedBy
    createdAt := u.createdAt.getD p.createdAt }

/-- The storage-layer update performed by `updateProduct` once ownership has
been checked: strip the protected keys (lines 386-389), then
`findByIdAndUpdate(productId, updates, { new: true, runValidators: true })`
applied to the stored document `p`. -/
def updateFields (p : Product) (raw : UpdatePayload) : Except MongoErr Product :=
  let u := stripImmutable raw
  if updateValidatorsPass u then .ok (applyUpdate p u) else .error .validationErr

/-- PUT /api/products/:productId (productController.js lines 362-411).
`userId` is `req.user.userId` as set by `authenticateToken`.  The ownership
check of line 378 is `product.addedBy.toString() !== userId`: a strict
comparison of a string against the caller's value.  A thrown mongoose error
(CastError or ValidationError) reaches the catch block, which answers 500. -/
def updateProduct (st : Catalog) (userId : JsVal) (pid : String)
    (body : UpdatePayload) : ApiResp Product × Catalog :=
  match findByIdResult st pid with
  | .error _ => (.internalErr, st)
  | .ok none => (.notFound "Product not found", st)
  | .ok (some p) =>
    if !(jsStrictEqStr p.addedBy userId) then
      (.forbidden "You can only update your own products", st)
    else
      match updateFields p body with
      | .ok p' => (.ok p', setProduct st p')
      | .error _ => (.internalErr, st)

/-- DELETE /api/products/:productId (productController.js lines 419-455), with
the same ownership comparison on line 433. -/
def deleteProduct (st : Catalog) (userId : JsVal) (pid : String) :
    ApiResp Unit × Catalog :=
  match findByIdResult st pid with
  | .error _ => (.internalErr, st)
  | .ok none => (.notFound "Product not found", st)
  | .ok (some p) =>
    if !(jsStrictEqStr p.addedBy userId) then
      (.forbidden "You can only delete your own products", st)
    else
      (.ok (), st.filter (fun q => !(q.id == p.id)))

/-- The multipart body of POST /api/products after upstream zod validation
(price and coordinates already parsed to numbers). -/
structure AddProductInput where
  pname : String
  pdesc : String
  price : ℚ
  category : String
  plat : ℚ
  plong : ℚ
  condition : String := "good"
  pimage : Option String := none
  pimage2 : Option String := none
deriving DecidableEq

/-- The document object built by POST /api/products (productController.js
lines 44-56): `status` defaults to active and both counters to 0. -/
def builtProduct (requester : User) (inp : AddProductInput) (img newId : String)
    (now : Nat) : Product :=
  { id := newId, pname := inp.pname, pdesc := inp.pdesc, price := inp.price
    category := inp.category, pimage := img, addedBy := requester.id
    status := "active", condition := inp.condition
    pLoc := { long := inp.plong, lat := inp.plat }
    likesCount := 0, viewsCount := 0, createdAt := now }

/-- POST /api/products, continued: requires a primary image, then saves the
document built above; a mongoose ValidationError is answered with 400. -/
def addProduct (st : Catalog) (requester : User) (inp : AddProductInput)
    (newId : String) (now : Nat) : ApiResp Product × Catalog :=
  match inp.pimage with
  | none => (.badRequest "Primary product image is required", st)
  | some img =>
    let p := builtProduct requester inp img newId now
    if productValidate p then (.created p, st ++ [p])
    else (.validationFailed, st)

/-- GET /api/products/:productId (productController.js lines 175-214): a
malformed id makes `findById` throw a CastError, answered with 400 before any
document is touched; on success `incrementViews` bumps the counter via
`save()` and the post-increment document is returned. -/
def getProductById (st : Catalog) (pid : String) : ApiResp Product × Catalog :=
  match findByIdResult st pid with
  | .error .castErr => (.badRequest "Invalid product ID", st)
  | .error .validationErr => (.internalErr, st)
  | .ok none => (.notFound "Product not found", st)
  | .ok (some p) =>
    let p' := { p with viewsCount := p.viewsCount + 1 }
    match saveProduct st p' with
    | .ok st' => (.ok p', st')
    | .error _ => (.internalErr, st)

/-- Sort relation for `sort({ createdAt: -1 })`: newest first. -/
def byCreatedDesc (p q : Product) : Prop := q.createdAt ≤ p.createdAt

instance : DecidableRel byCreatedDesc :=
  fun p q => inferInstanceAs (Decidable (q.createdAt ≤ p.createdAt))

instance : IsTotal Product byCreatedDesc :=
  ⟨fun p q => le_total q.createdAt p.createdAt⟩

instance : IsTrans Product byCreatedDesc :=
  ⟨fun _ _ _ h1 h2 => le_trans h2 h1⟩

/-- Sort relation for `sort({ price: 1 })`. -/
def byPriceAsc (p q : Product) : Prop := p.price ≤ q.price

instance : DecidableRel byPriceAsc :=
  fun p q => inferInstanceAs (Decidable (p.price ≤ q.price))

instance : IsTotal Product byPriceAsc := ⟨fun p q => le_total p.price q.price⟩

instance : IsTrans Product byPriceAsc := ⟨fun _ _ _ h1 h2 => le_trans h1 h2⟩

/-- Sort relation for `sort({ price: -1 })`. -/
def byPriceDesc (p q : Product) : Prop := q.price ≤ p.price

instance : DecidableRel byPriceDesc :=
  fun p q => inferInstanceAs (Decidable (q.price ≤ p.price))

instance : IsTotal Product byPriceDesc :=
  ⟨fun p q => le_total q.price p.price⟩

instance : IsTrans Product byPriceDesc := ⟨fun _ _ _ h1 h2 => le_trans h2 h1⟩

/-- The query string of GET /api/products after the controller's destructuring
defaults (`page = 1`, `limit = 20`, `status = 'active'`) and `parseInt` /
`parseFloat` coercions.  `sortBy` is the raw `sortBy` query parameter. -/
structure BrowseQuery where
  catName : Option String := none
  page : Int := 1
  limit : Int := 20
  status : String := "active"
  minPrice : Option ℚ := none
  maxPrice : Option ℚ := none
  sortBy : Option String := none
deriving DecidableEq

/-- The mongo filter built by `getProducts` (lines 107-121): status equality,
optional exact category, optional price range. -/
def browseMatch (q : BrowseQuery) (p : Product) : Bool :=
  (p.status == q.status) &&
  (match q.catName with | none => true | some c => p.category == c) &&
  (match q.minPrice with | none => true | some m => m ≤ p.price) &&
  (match q.maxPrice with | none => true | some m => p.price ≤ m)

/-- The sort options of lines 124-129: newest first by default, price
ascending/descending when requested. -/
def sortProducts (q : BrowseQuery) (l : List Product) : List Product :=
  match q.sortBy with
  | some "price-asc" => l.insertionSort byPriceAsc
  | some "price-desc" => l.insertionSort byPriceDesc
  | _ => l.insertionSort byCreatedDesc

/-- `cursor.skip(n)`.  (MongoDB rejects a negative skip with a server error;
no claim exercises that path, so the embedding truncates at 0.) -/
def mongoSkip (n : Int) (l : List Product) : List Product := l.drop n.toNat

/-- `cursor.limit(n)`: 0 means no limit in MongoDB; a negative value behaves
like its absolute value. -/
def mongoLimit (n : Int) (l : List Product) : List Product :=
  if n = 0 then l else l.take n.natAbs

/-- The pagination envelope of `getProducts`. -/
structure BrowsePage where
  products : List Product
  currentPage : Int
  totalProducts : Nat
  hasNext : Bool
  hasPrev : Bool
deriving DecidableEq

/-- GET /api/products (productController.js lines 102-167).  There is no
validation middleware on this route and the controller checks nothing: any
`page`/`limit` value is used as-is with `skip = (page-1)*limit`. -/
def getProducts (st : Catalog) (q : BrowseQuery) : ApiResp BrowsePage :=
  let matching := st.filter (browseMatch q)
  let sorted := sortProducts q matching
  let skip := (q.page - 1) * q.limit
  let items := mongoLimit q.limit (mongoSkip skip sorted)
  .ok { products := items, currentPage := q.page
        totalProducts := matching.length
        hasNext := decide (skip + (items.length : Int) < (matching.length : Int))
        hasPrev := decide (1 < q.page) }

/-- Numeric value of a digit list (most significant first). -/
def digitsVal (cs : List Char) : Nat :=
  cs.foldl (fun a c => a * 10 + (c.toNat - 48)) 0

/-- JavaScript `parseFloat` on an unsigned input of the shape produced by the
validated location components (`\d+\.?\d*`): longest digit run, optional
fraction after a dot, any remaining characters ignored (as `parseFloat` does);
`none` models NaN (no leading digits).  Exponents and a leading dot or plus
sign, which the search regex excludes, are not modelled. -/
def parseUnsignedQ (cs : List Char) : Option ℚ :=
  match cs.takeWhile Char.isDigit with
  | [] => none
  | ds =>
    let rest := cs.dropWhile Char.isDigit
    let fr := match rest with
      | '.' :: r => r.takeWhile Char.isDigit
      | _ => []
    some (mkRat (digitsVal ds * 10 ^ fr.length + digitsVal fr) (10 ^ fr.length))

/-- `parseFloat` with an optional leading minus sign. -/
def parseNumQ (cs : List Char) : Option ℚ :=
  if cs.head? = some '-' then (parseUnsignedQ cs.tail).map (fun x => -x)
  else parseUnsignedQ cs

/-- Split a character list at every comma (JavaScript `split(',')`). -/
def splitComma : List Char → List (List Char)
  | [] => [[]]
  | c :: rest =>
    if c = ',' then [] :: splitComma rest
    else
      match splitComma rest with
      | [] => [[c]]
      | g :: gs => (c :: g) :: gs

/-- `String.prototype.trim`: drop whitespace from both ends. -/
def trimWs (cs : List Char) : List Char :=
  (((cs.dropWhile Char.isWhitespace)).reverse.dropWhile Char.isWhitespace).reverse

/-- productController.js line 227:
`const [latitude, longitude] = loc.split(',').map(c0 => parseFloat(c0.trim()))`.
The first component is the latitude.  `none` models the executions in which a
component is missing or NaN, which make the subsequent `$near` query throw
(answered 500 by the catch block). -/
def parseLocQ (s : String) : Option (ℚ × ℚ) :=
  match splitComma s.data with
  | a :: b :: _ =>
    match parseNumQ (trimWs a), parseNumQ (trimWs b) with
    | some la, some lo => some (la, lo)
    | _, _ => none
  | _ => none

/-- The unsigned part of the zod location regex, `\d+\.?\d*` (full match). -/
def numFormatU (cs : List Char) : Bool :=
  decide (cs.takeWhile Char.isDigit ≠ []) &&
  (match cs.dropWhile Char.isDigit with
   | [] => true
   | '.' :: r => r.all Char.isDigit
   | _ => false)

/-- One number of the zod location regex, `-?\d+\.?\d*` (full match). -/
def numFormat (cs : List Char) : Bool :=
  if cs.head? = some '-' then numFormatU cs.tail else numFormatU cs

/-- The zod `loc` regex of lib/validations.js line 108,
`^-?\d+\.?\d*,-?\d+\.?\d*$`: exactly two comma-separated decimal numbers.
No range constraint appears anywhere in it. -/
def locFormat (s : String) : Bool :=
  match splitComma s.data with
  | [a, b] => numFormat a && numFormat b
  | _ => false

/-- The query string of GET /api/products/search after the controller's
destructuring (`maxDistance = 50` default, then numeric coercion by
`maxDistance * 1000`). -/
structure SearchQuery where
  search : Option String := none
  loc : Option String := none
  category : Option String := none
  maxDistance : Option ℚ := none
deriving DecidableEq

/-- `searchSchema` of lib/validations.js lines 105-114, applied by the
`validate` middleware before `searchProducts` runs: `search` required with
length 1..100 (no trimming), `loc` required and matching the format regex
(no range check), optional category enum, optional `maxDistance` with
`parseInt` in 1..1000. -/
def searchSchemaCheck (q : SearchQuery) : Bool :=
  (match q.search with | none => false | some s => (1 ≤ s.length) && (s.length ≤ 100)) &&
  (match q.loc with | none => false | some s => locFormat s) &&
  (match q.category with | none => true | some c => categoryEnum.contains c) &&
  (match q.maxDistance with
   | none => true
   | some d => (1 ≤ d.num / (d.den : Int)) && (d.num / (d.den : Int) ≤ 1000))

/-- Case-sensitive check that `needle` starts `hay`. -/
def startsWithChars : List Char → List Char → Bool
  | [], _ => true
  | _ :: _, [] => false
  | a :: as, b :: bs => (a == b) && startsWithChars as bs

/-- Substring check on character lists. -/
def hasSubChars (needle : List Char) : List Char → Bool
  | [] => needle.isEmpty
  | hay@(_ :: bs) => startsWithChars needle hay || hasSubChars needle bs

/-- The `$regex`/`$options: 'i'` match of the controller for a plain keyword:
case-insensitive substring containment (regex metacharacters are out of the
scope of the claims). -/
def containsCI (hay needle : String) : Bool :=
  hasSubChars (needle.data.map Char.toLower) (hay.data.map Char.toLower)

/-- The `$or` of searchProducts lines 231-235: keyword against name,
description or category. -/
def kwMatch (s : String) (p : Product) : Bool :=
  containsCI p.pname s || containsCI p.pdesc s || containsCI p.category s

/-- The complete search filter (lines 230-253): keyword `$or`, `status:
'active'`, optional exact category, and the `$near` `$maxDistance` cut.
`dst` is the geodesic metric of the 2dsphere index (external to the
repository, hence a parameter); `maxMeters` is `maxDistance * 1000`. -/
def searchMatch (dst : GeoPoint → GeoPoint → ℚ) (s : String) (pt : GeoPoint)
    (maxMeters : ℚ) (cat : Option String) (p : Product) : Bool :=
  kwMatch s p && (p.status == "active") &&
  (match cat with | none => true | some c => p.category == c) &&
  decide (dst pt p.pLoc ≤ maxMeters)

/-- The response body of searchProducts (lines 259-268). -/
structure SearchPage where
  products : List Product
  resultsCount : Nat
deriving DecidableEq

/-- GET /api/products/search (productController.js lines 222-278).  The
matches are sorted with the explicit `sort({ createdAt: -1 })` of line 257,
which overrides the distance order of `$near`; no skip or limit is applied.
A missing `search`/`loc` or a NaN coordinate cannot pass the zod validation
of this route; those executions end in the catch block (500) and are modelled
by `internalErr`. -/
def searchProducts (dst : GeoPoint → GeoPoint → ℚ) (st : Catalog)
    (q : SearchQuery) : ApiResp SearchPage :=
  match q.loc with
  | none => .internalErr
  | some locStr =>
    match parseLocQ locStr with
    | none => .internalErr
    | some (la, lo) =>
      match q.search with
      | none => .internalErr
      | some s =>
        let maxMeters := qMul (q.maxDistance.getD 50) 1000
        let pt : GeoPoint := { long := lo, lat := la }
        let sorted :=
          (st.filter (searchMatch dst s pt maxMeters q.category)).insertionSort
            byCreatedDesc
        .ok { products := sorted, resultsCount := sorted.length }

/-- `incrementLikes` of models/Product.js lines 506-509 (before the `save()`). -/
def incLikes (p : Product) : Product := { p with likesCount := p.likesCount + 1 }

/-- `decrementLikes` of models/Product.js lines 514-519: floored at 0. -/
def decLikes (p : Product) : Product :=
  if p.likesCount > 0 then { p with likesCount := p.likesCount - 1 } else p

/-- `incrementViews` of models/Product.js lines 498-501. -/
def incViews (p : Product) : Product := { p with viewsCount := p.viewsCount + 1 }

/-- The users collection together with the product catalog. -/
structure AppState where
  users : List User
  products : Catalog
deriving DecidableEq

/-- POST /api/like-product (userController.js lines 19-59), run to completion
with no interleaving request.  The source awaits `User.findById(userId)` and
`Product.findById(productId)` (lines 25-26) before either null check, so a
malformed product id throws a CastError first and is answered 500 by the catch
block even when the user is missing; the user lookup itself cannot throw (the
authenticated id is a stored ObjectId).  After both lookups: `if (!user)` then
`if (!product)` answer 404, then `user.likedProducts.includes(productId)`
(mongoose arrays cast, so the hex string membership test is faithful) decides
between unlike (pull + `decrementLikes` + save) and like (push +
`incrementLikes` + save).  The boolean payload is the `isLiked` field of the
response. -/
def likeProducts (st : AppState) (uid pid : String) : ApiResp Bool × AppState :=
  match findByIdResult st.products pid with
  | .error _ => (.internalErr, st)
  | .ok prodOpt =>
    match findUser st.users uid with
    | none => (.notFound "User not found", st)
    | some u =>
      match prodOpt with
      | none => (.notFound "Product not found", st)
      | some p =>
        if u.likedProducts.contains pid then
          match saveProduct st.products (decLikes p) with
          | .error _ => (.internalErr, st)
          | .ok ps =>
            let u' := { u with likedProducts := u.likedProducts.filter (fun x => !(x == pid)) }
            (.ok false, { users := setUser st.users u', products := ps })
        else
          match saveProduct st.products (incLikes p) with
          | .error _ => (.internalErr, st)
          | .ok ps =>
            let u' := { u with likedProducts := u.likedProducts ++ [pid] }
            (.ok true, { users := setUser st.users u', products := ps })

/-!
Concurrency model for two overlapping `likeProducts` requests from two
distinct users on the same product.  Each request is two storage round-trips
on the shared product record: a read (`findById`, which also fixes the
`isLiked` test against the caller's own user document) and a write (the
`save()` of `incrementLikes`/`decrementLikes`, which writes the counter value
computed from the read snapshot — application-level read-modify-write, not a
storage-side `$inc`).  The two user documents are distinct, so only the
product record is contended.
-/

/-- Shared state of the two-request race: the product's `likesCount` plus each
caller's `likedProducts` list, the per-request snapshots, and the `isLiked`
response of each request once it has answered. -/
structure RaceState where
  likes : Int
  u1Liked : List String
  u2Liked : List String
  snap1 : Option (Int × Bool) := none
  snap2 : Option (Int × Bool) := none
  ret1 : Option Bool := none
  ret2 : Option Bool := none
deriving DecidableEq

/-- The four atomic storage events of the race: request i reads, request i
writes. -/
inductive RaceAct where
  | read1
  | write1
  | read2
  | write2
deriving DecidableEq

/-- One storage event.  A read snapshots the counter and evaluates the
membership test on the caller's own list; a write applies the
increment/decrement computed from the snapshot and updates the caller's
list, then the response is sent. -/
def raceStep (pid : String) (st : RaceState) : RaceAct → RaceState
  | .read1 => { st with snap1 := some (st.likes, st.u1Liked.contains pid) }
  | .read2 => { st with snap2 := some (st.likes, st.u2Liked.contains pid) }
  | .write1 =>
    match st.snap1 with
    | none => st
    | some (c, il) =>
      if il then
        { st with likes := if c > 0 then c - 1 else c
                  u1Liked := st.u1Liked.filter (fun x => !(x == pid))
                  ret1 := some false }
      else
        { st with likes := c + 1, u1Liked := st.u1Liked ++ [pid], ret1 := some true }
  | .write2 =>
    match st.snap2 with
    | none => st
    | some (c, il) =>
      if il then
        { st with likes := if c > 0 then c - 1 else c
                  u2Liked := st.u2Liked.filter (fun x => !(x == pid))
                  ret2 := some false }
      else
        { st with likes := c + 1, u2Liked := st.u2Liked ++ [pid], ret2 := some true }

/-- Run a schedule of storage events. -/
def runRace (pid : String) (acts : List RaceAct) (st : RaceState) : RaceState :=
  acts.foldl (raceStep pid) st

/-- All interleavings of the two requests (each request reads before it
writes). -/
def raceSchedules : List (List RaceAct) :=
  [[.read1, .write1, .read2, .write2],
   [.read2, .write2, .read1, .write1],
   [.read1, .read2, .write1, .write2],
   [.read1, .read2, .write2, .write1],
   [.read2, .read1, .write1, .write2],
   [.read2, .read1, .write2, .write1]]

/-- Fresh product (`likesCount = 0`), neither user has liked it. -/
def freshRace : RaceState := { likes := 0, u1Liked := [], u2Liked := [] }



/-- Decidable equality for `Except` results of the storage layer. -/
instance {ε α : Type} [DecidableEq ε] [DecidableEq α] : DecidableEq (Except ε α)
  | .ok a, .ok b =>
    if h : a = b then .isTrue (by rw [h]) else .isFalse (by intro hh; cases hh; exact h rfl)
  | .error a, .error b =>
    if h : a = b then .isTrue (by rw [h]) else .isFalse (by intro hh; cases hh; exact h rfl)
  | .ok _, .error _ => .isFalse (by intro h; cases h)
  | .error _, .ok _ => .isFalse (by intro h; cases h)

/-!  Concrete fixtures used by the closed theorems below. -/

/-- Hex id of the demo owner. -/
def ownerHex : String := "aaaaaaaaaaaaaaaaaaaaaaaa"

/-- Hex id of the demo product. -/
def prodHex : String := "bbbbbbbbbbbbbbbbbbbbbbbb"

/-- The demo owner as stored in the users collection. -/
def ownerUser : User := { id := ownerHex, likedProducts := [] }

/-- A schema-valid stored product owned by `ownerUser`. -/
def pDemo : Product :=
  { id := prodHex, pname := "Camera One", pdesc := "A compact camera"
    price := 150, category := "Electronics", pimage := "uploads/cam1.jpg"
    addedBy := ownerHex, status := "active", condition := "good"
    pLoc := { long := 0, lat := mkRat 1 10 }
    likesCount := 0, viewsCount := 0, createdAt := 1 }

/-- Great-circle distance, in meters, on the spherical Earth model for points
sharing a longitude: about 111195 meters per degree of latitude along a
meridian.  Used to instantiate the abstract metric of the 2dsphere index at
concrete inputs. -/
def meridianMeters (a b : GeoPoint) : ℚ := qMul (qAbs (qSub a.lat b.lat)) 111195

/-- An old product close to the origin (11119.5 m at latitude 0.1). -/
def prodNearOld : Product :=
  { id := "111111111111111111111111", pname := "Camera Old"
    pdesc := "An old camera", price := 100, category := "Electronics"
    pimage := "uploads/a.jpg", addedBy := "aaaaaaaaaaaaaaaaaaaaaaaa"
    status := "active", condition := "good"
    pLoc := { long := 0, lat := mkRat 1 10 }
    likesCount := 0, viewsCount := 0, createdAt := 1 }

/-- A newer product three times as far from the origin (33358.5 m at
latitude 0.3). -/
def prodFarNew : Product :=
  { id := "222222222222222222222222", pname := "Camera New"
    pdesc := "A newer camera", price := 120, category := "Electronics"
    pimage := "uploads/b.jpg", addedBy := "aaaaaaaaaaaaaaaaaaaaaaaa"
    status := "active", condition := "good"
    pLoc := { long := 0, lat := mkRat 3 10 }
    likesCount := 0, viewsCount := 0, createdAt := 2 }

/-- A validated search for "camera" from the origin (default maxDistance). -/
def qSearchCam : SearchQuery := { search := some "camera", loc := some "0,0" }

/-- A user who has not liked anything yet. -/
def uLiker : User := { id := "eeeeeeeeeeeeeeeeeeeeeeee", likedProducts := [] }

/-- A user who has already liked the demo product. -/
def uAlready : User :=
  { id := "ffffffffffffffffffffffff", likedProducts := ["bbbbbbbbbbbbbbbbbbbbbbbb"] }


/-- The §3 storage invariant of the claim: positive price and in-range
coordinates. -/
def boundsOk (p : Product) : Prop :=
  0 < p.price ∧ -180 ≤ p.pLoc.long ∧ p.pLoc.long ≤ 180 ∧
    -90 ≤ p.pLoc.lat ∧ p.pLoc.lat ≤ 90

instance (p : Product) : Decidable (boundsOk p) := by
  unfold boundsOk; infer_instance

/-- A valid creation body. -/
def addInpDemo : AddProductInput :=
  { pname := "Bike", pdesc := "A sturdy bike", price := 80, category := "Sports"
    plat := 10, plong := 20, pimage := some "uploads/bike.jpg" }

/-- Claim C2 (code_bug evidence): the OWNER of a product — the requester whose
ObjectId hex equals `product.addedBy` — receives 403 Forbidden from both
update and delete, and the catalog is untouched.  Line 378 compares the
string `product.addedBy.toString()` against the ObjectId instance
`req.user.userId` with `!==`, which is always true across runtime types, so
no requester can ever pass the ownership check. -/
theorem c2_owner_receives_forbidden :
    (updateProduct [pDemo] (authUserId ownerUser) prodHex {}).1 =
      .forbidden "You can only update your own products" ∧
    (updateProduct [pDemo] (authUserId ownerUser) prodHex {}).2 = [pDemo] ∧
    (deleteProduct [pDemo] (authUserId ownerUser) prodHex).1 =
      .forbidden "You can only delete your own products" ∧
    (deleteProduct [pDemo] (authUserId ownerUser) prodHex).2 = [pDemo] ∧
    pDemo.addedBy = ownerUser.id := by
  decide

/-- Claim C4 (code_bug evidence): GET /api/products performs no page/limit
validation: `limit = 101` (above the documented cap of 100) and `limit = 0`
(below the documented minimum of 1) are both served with 200 and are not
clamped — `limit = 0` even disables limiting altogether. -/
theorem c4_limit_unvalidated :
    getProducts [pDemo] { limit := 101 } =
      .ok { products := [pDemo], currentPage := 1, totalProducts := 1
            hasNext := false, hasPrev := false } ∧
    (getProducts [pDemo] { limit := 101 }).statusCode = 200 ∧
    getProducts [pDemo] { limit := 0 } =
      .ok { products := [pDemo], currentPage := 1, totalProducts := 1
            hasNext := false, hasPrev := false } ∧
    (getProducts [pDemo] { limit := 0 }).statusCode ≠ 400 := by
  decide

/-- Claim C10: a detail fetch whose product id does not cast to an ObjectId is
answered 400 "Invalid product ID" — a status distinct from the 404 used for
NotFound — and the catalog (in particular every `viewsCount`) is unchanged. -/
theorem c10_invalid_id_rejected (st : Catalog) (pid : String)
    (h : validObjectId pid = false) :
    (getProductById st pid).1 = .badRequest "Invalid product ID" ∧
    ((getProductById st pid).1).statusCode = 400 ∧
    (ApiResp.notFound (α := Product) "Product not found").statusCode = 404 ∧
    (getProductById st pid).2 = st := by
  unfold getProductById findByIdResult
  rw [h]
  simp [ApiResp.statusCode]

/-- Witness for C10 at the malformed id "nope" (neither 24 hex characters nor
length 12). -/
theorem c10_witness :
    validObjectId "nope" = false ∧
    (getProductById [pDemo] "nope").1 = .badRequest "Invalid product ID" ∧
    (getProductById [pDemo] "nope").2 = [pDemo] := by
  refine ⟨by decide, ?_, ?_⟩
  · exact (c10_invalid_id_rejected [pDemo] "nope" (by decide)).1
  · exact (c10_invalid_id_rejected [pDemo] "nope" (by decide)).2.2.2

/-- Claim C3 (refutation): the stripped PUT payload keeps `likesCount` and
`viewsCount`, so a client body carrying them overwrites the stored counters
through `findByIdAndUpdate`. -/
theorem c3_counterexample :
    updateFields pDemo { likesCount := some 999, viewsCount := some 777 } =
      .ok { pDemo with likesCount := 999, viewsCount := 777 } ∧
    pDemo.likesCount = 0 ∧ (999 : Int) ≠ 0 := by
  decide

/-- Claim C3 (amended): the counters survive an applied update exactly when the
payload omits them — only `_id`, `addedBy`, `createdAt`, `updatedAt` are
stripped, so protection of the counters depends on the client not sending
them. -/
theorem c3_counters_preserved_when_omitted (p p' : Product) (raw : UpdatePayload)
    (hl : raw.likesCount = none) (hv : raw.viewsCount = none)
    (h : updateFields p raw = .ok p') :
    p'.likesCount = p.likesCount ∧ p'.viewsCount = p.viewsCount := by
  unfold updateFields at h
  by_cases hok : updateValidatorsPass (stripImmutable raw) = true
  · rw [if_pos hok] at h
    cases h
    constructor <;> simp [applyUpdate, stripImmutable, hl, hv]
  · rw [if_neg hok] at h
    cases h

/-- Witness for the amended C3 at a payload that only changes the price. -/
theorem c3_witness :
    updateFields pDemo { price := some 200 } = .ok { pDemo with price := 200 } ∧
    ({ pDemo with price := 200 } : Product).likesCount = pDemo.likesCount ∧
    ({ pDemo with price := 200 } : Product).viewsCount = pDemo.viewsCount := by
  have h : updateFields pDemo { price := some 200 } =
      .ok { pDemo with price := 200 } := by decide
  exact ⟨h, c3_counters_preserved_when_omitted pDemo _ _ rfl rfl h⟩

/-- The coordinate validator implies the coordinate bounds. -/
theorem coordsValid_bounds {g : GeoPoint} (h : coordsValid g = true) :
    -180 ≤ g.long ∧ g.long ≤ 180 ∧ -90 ≤ g.lat ∧ g.lat ≤ 90 := by
  simp only [coordsValid, Bool.and_eq_true, decide_eq_true_eq, and_assoc] at h
  exact h

/-- The schema minimum 0.01 implies strict positivity. -/
theorem minPrice_pos {x : ℚ} (h : mkRat 1 100 ≤ x) : 0 < x :=
  lt_of_lt_of_le (by decide) h

/-- Full-document validation implies the storage invariant. -/
theorem productValidate_boundsOk {p : Product} (h : productValidate p = true) :
    boundsOk p := by
  simp only [productValidate, Bool.and_eq_true, decide_eq_true_eq, and_assoc] at h
  obtain ⟨-, -, -, -, hpr, -, -, -, hco, -, -⟩ := h
  exact ⟨minPrice_pos hpr, coordsValid_bounds hco⟩

/-- Update validators preserve the storage invariant across `$set`. -/
theorem applyUpdate_boundsOk {p : Product} {u : UpdatePayload}
    (hb : boundsOk p) (hv : updateValidatorsPass u = true) :
    boundsOk (applyUpdate p u) := by
  simp only [updateValidatorsPass, Bool.and_eq_true, and_assoc] at hv
  obtain ⟨-, -, hpr, -, -, -, -, hpl, -⟩ := hv
  obtain ⟨hbp, hb1, hb2, hb3, hb4⟩ := hb
  refine ⟨?_, ?_⟩
  · show 0 < (applyUpdate p u).price
    cases hu : u.price with
    | none => simpa [applyUpdate, hu] using hbp
    | some x =>
      rw [hu] at hpr
      simp only [decide_eq_true_eq] at hpr
      simpa [applyUpdate, hu] using minPrice_pos hpr
  · show -180 ≤ (applyUpdate p u).pLoc.long ∧ _
    cases hg : u.pLoc with
    | none => simpa [applyUpdate, hg] using ⟨hb1, hb2, hb3, hb4⟩
    | some g =>
      rw [hg] at hpl
      simpa [applyUpdate, hg] using coordsValid_bounds hpl

/-- Claim C7: every stored product keeps `price > 0`, `-180 ≤ longitude ≤ 180`
and `-90 ≤ latitude ≤ 90`: an insert whose document violates the bounds is
rejected with a ValidationError and the catalog is unchanged, inserts that
succeed preserve the invariant, an applied (full or partial) update preserves
the invariant, and an update whose merged record would violate the bounds is
rejected by the update validators with a ValidationError (leaving the stored
document untouched). -/
theorem c7_stored_invariant
    (st : Catalog) (requester : User) (inp : AddProductInput)
    (newId : String) (now : Nat) (p : Product) (raw : UpdatePayload)
    (hst : ∀ q ∈ st, boundsOk q) (hp : boundsOk p) :
    (∀ q ∈ (addProduct st requester inp newId now).2, boundsOk q) ∧
    (∀ img, inp.pimage = some img →
      ¬ boundsOk (builtProduct requester inp img newId now) →
      addProduct st requester inp newId now = (.validationFailed, st)) ∧
    (∀ p', updateFields p raw = .ok p' → boundsOk p') ∧
    (¬ boundsOk (applyUpdate p (stripImmutable raw)) →
      updateFields p raw = .error .validationErr) := by
  refine ⟨?_, ?_, ?_, ?_⟩
  · unfold addProduct
    cases hi : inp.pimage with
    | none => simpa using hst
    | some img =>
      dsimp only
      by_cases hval : productValidate (builtProduct requester inp img newId now) = true
      · rw [if_pos hval]
        intro q hq
        rcases List.mem_append.mp hq with h | h
        · exact hst q h
        · rcases List.mem_singleton.mp h with rfl
          exact productValidate_boundsOk hval
      · rw [if_neg hval]
        simpa using hst
  · intro img hi hnb
    unfold addProduct
    rw [hi]
    dsimp only
    have hnv : ¬ (productValidate (builtProduct requester inp img newId now) = true) :=
      fun hv => hnb (productValidate_boundsOk hv)
    rw [if_neg hnv]
  · intro p' h
    unfold updateFields at h
    by_cases hok : updateValidatorsPass (stripImmutable raw) = true
    · rw [if_pos hok] at h
      cases h
      exact applyUpdate_boundsOk hp hok
    · rw [if_neg hok] at h
      cases h
  · intro hnb
    unfold updateFields
    have hnv : ¬ (updateValidatorsPass (stripImmutable raw) = true) :=
      fun hok => hnb (applyUpdate_boundsOk hp hok)
    rw [if_neg hnv]

/-- Witness for C7: a valid insert into the empty catalog keeps the invariant,
and an update trying to set `price := -5` is rejected by the update
validators. -/
theorem c7_witness :
    (∀ q ∈ (addProduct [] ownerUser addInpDemo "333333333333333333333333" 5).2,
      boundsOk q) ∧
    updateFields pDemo { price := some (-5) } = .error .validationErr := by
  have h := c7_stored_invariant [] ownerUser addInpDemo "333333333333333333333333" 5
    pDemo { price := some (-5) } (by simp) (by decide)
  exact ⟨h.1, h.2.2.2 (by decide)⟩

/-- Unpacking a successful `findById` with cast. -/
theorem findByIdResult_ok_some {st : Catalog} {pid : String} {p : Product}
    (h : findByIdResult st pid = .ok (some p)) :
    validObjectId pid = true ∧ findProduct st pid = some p := by
  unfold findByIdResult at h
  by_cases hv : validObjectId pid = true
  · rw [if_pos hv] at h
    exact ⟨hv, by injection h⟩
  · rw [if_neg hv] at h
    cases h

/-- Rebuilding a successful `findById` with cast. -/
theorem findByIdResult_build {st : Catalog} {pid : String} {o : Option Product}
    (hv : validObjectId pid = true) (h : findProduct st pid = o) :
    findByIdResult st pid = .ok o := by
  unfold findByIdResult
  rw [if_pos hv, h]

/-- Writing back a user found by id makes the write-back the user found next. -/
theorem findUser_setUser {us : List User} {uid : String} {u : User} (u' : User)
    (h : findUser us uid = some u) (hid : u'.id = u.id) :
    findUser (setUser us u') uid = some u' := by
  have huid : u.id = uid := by
    have hh := List.find?_some (p := fun (x : User) => x.id == uid)
      (by simpa [findUser] using h)
    exact beq_iff_eq.mp hh
  induction us with
  | nil => simp [findUser] at h
  | cons v vs ih =>
    simp only [findUser, setUser, List.map_cons] at h ih ⊢
    by_cases hv : (v.id == uid) = true
    · rw [List.find?_cons_of_pos (p := fun (x : User) => x.id == uid) vs hv] at h
      injection h with h
      subst h
      have h1 : (v.id == u'.id) = true := beq_iff_eq.mpr (by rw [hid])
      rw [if_pos h1]
      exact List.find?_cons_of_pos (p := fun (x : User) => x.id == uid) _
        (beq_iff_eq.mpr (by rw [hid, huid]))
    · rw [List.find?_cons_of_neg (p := fun (x : User) => x.id == uid) vs hv] at h
      have h1 : ¬ (v.id == u'.id) = true := by
        rw [hid, huid]
        exact hv
      rw [if_neg h1]
      rw [List.find?_cons_of_neg (p := fun (x : User) => x.id == uid) _ hv]
      exact ih h
/-- Writing back a product found by id makes the write-back the product found
next. -/
theorem findProduct_setProduct {ps : Catalog} {pid : String} {p : Product}
    (p' : Product) (h : findProduct ps pid = some p) (hid : p'.id = p.id) :
    findProduct (setProduct ps p') pid = some p' := by
  have hpid : p.id = pid := by
    have hh := List.find?_some (p := fun (x : Product) => x.id == pid)
      (by simpa [findProduct] using h)
    exact beq_iff_eq.mp hh
  induction ps with
  | nil => simp [findProduct] at h
  | cons v vs ih =>
    simp only [findProduct, setProduct, List.map_cons] at h ih ⊢
    by_cases hv : (v.id == pid) = true
    · rw [List.find?_cons_of_pos (p := fun (x : Product) => x.id == pid) vs hv] at h
      injection h with h
      subst h
      have h1 : (v.id == p'.id) = true := beq_iff_eq.mpr (by rw [hid])
      rw [if_pos h1]
      exact List.find?_cons_of_pos (p := fun (x : Product) => x.id == pid) _
        (beq_iff_eq.mpr (by rw [hid, hpid]))
    · rw [List.find?_cons_of_neg (p := fun (x : Product) => x.id == pid) vs hv] at h
      have h1 : ¬ (v.id == p'.id) = true := by
        rw [hid, hpid]
        exact hv
      rw [if_neg h1]
      rw [List.find?_cons_of_neg (p := fun (x : Product) => x.id == pid) _ hv]
      exact ih h

/-- Claim C6 (amended): for a stored user and product where the user has not
yet liked the product, toggling twice answers `isLiked = true` then
`isLiked = false` and restores both the user's `likedProducts` and the
product's `likesCount` (looked up afterwards, user and product are exactly as
before); when the product id casts, a missing user or a missing product is
answered NotFound (a non-casting id is answered 500 before the user check). -/
theorem c6_toggle_roundtrip :
    (∀ (st : AppState) (uid pid : String) (u : User) (p : Product),
      findUser st.users uid = some u →
      findByIdResult st.products pid = Except.ok (some p) →
      u.likedProducts.contains pid = false →
      0 ≤ p.likesCount → productValidate p = true →
      ∃ st₁, likeProducts st uid pid = (.ok true, st₁) ∧
        (likeProducts st₁ uid pid).1 = .ok false ∧
        findUser (likeProducts st₁ uid pid).2.users uid = some u ∧
        findProduct (likeProducts st₁ uid pid).2.products pid = some p) ∧
    (∀ (st : AppState) (uid pid : String),
      validObjectId pid = true →
      findUser st.users uid = none →
      (likeProducts st uid pid).1 = .notFound "User not found") ∧
    (∀ (st : AppState) (uid pid : String) (u : User),
      findUser st.users uid = some u →
      findByIdResult st.products pid = Except.ok none →
      (likeProducts st uid pid).1 = .notFound "Product not found") := by
  refine ⟨?_, ?_, ?_⟩
  · intro st uid pid u p hu hb hnl hnn hval
    obtain ⟨hvid, hfp⟩ := findByIdResult_ok_some hb
    have hval1 : productValidate (incLikes p) = true := hval
    have e1 : likeProducts st uid pid =
        (.ok true,
          ⟨setUser st.users { u with likedProducts := u.likedProducts ++ [pid] },
           setProduct st.products (incLikes p)⟩) := by
      simp only [likeProducts, hu, hb, hnl, Bool.false_eq_true, if_false, saveProduct,
        hval1, if_true]
    have hu1 : findUser
        (setUser st.users { u with likedProducts := u.likedProducts ++ [pid] }) uid =
        some { u with likedProducts := u.likedProducts ++ [pid] } :=
      findUser_setUser _ hu rfl
    have hfp1 : findProduct (setProduct st.products (incLikes p)) pid =
        some (incLikes p) :=
      findProduct_setProduct _ hfp rfl
    have hb1 : findByIdResult (setProduct st.products (incLikes p)) pid =
        .ok (some (incLikes p)) :=
      findByIdResult_build hvid hfp1
    have hc1 : ({ u with likedProducts := u.likedProducts ++ [pid] } :
        User).likedProducts.contains pid = true := by
      simp [List.contains]
    have hdec : decLikes (incLikes p) = p := by
      unfold decLikes incLikes
      rw [if_pos (show p.likesCount + 1 > 0 by omega)]
      simp
    have hmem : ∀ a ∈ u.likedProducts, ¬ (a == pid) = true := by
      intro a ha hbeq
      rw [beq_iff_eq.mp hbeq] at ha
      have hcc : u.likedProducts.contains pid = true := by
        simp [List.contains, ha]
      rw [hcc] at hnl
      cases hnl
    have hfilter : (u.likedProducts ++ [pid]).filter (fun x => !(x == pid)) =
        u.likedProducts := by
      rw [List.filter_append]
      have h2 : ([pid].filter (fun x => !(x == pid))) = ([] : List String) := by simp
      have h1 : u.likedProducts.filter (fun x => !(x == pid)) = u.likedProducts :=
        List.filter_eq_self.mpr (by intro a ha; simpa using hmem a ha)
      rw [h1, h2, List.append_nil]
    have e2 : likeProducts
        (⟨setUser st.users { u with likedProducts := u.likedProducts ++ [pid] },
          setProduct st.products (incLikes p)⟩ : AppState) uid pid =
        (.ok false,
          ⟨setUser (setUser st.users { u with likedProducts := u.likedProducts ++ [pid] }) u,
           setProduct (setProduct st.products (incLikes p)) p⟩) := by
      simp only [likeProducts, hu1, hb1, hc1, if_true, hdec, saveProduct, hval]
      rw [hfilter]
    refine ⟨_, e1, ?_, ?_, ?_⟩
    · rw [e2]
    · rw [e2]
      exact findUser_setUser u hu1 rfl
    · rw [e2]
      exact findProduct_setProduct p hfp1 rfl
  · intro st uid pid hv h
    simp only [likeProducts, findByIdResult, hv, if_true, h]
  · intro st uid pid u hu hb
    simp only [likeProducts, hu, hb]

/-- Claim C6 (refutation): a user who already has the product in
`likedProducts` gets `isLiked = false` from the FIRST call, not
`isLiked = true` as the claim states for every existing user/product pair. -/
theorem c6_counterexample :
    (likeProducts ⟨[uAlready], [pDemo]⟩ "ffffffffffffffffffffffff" prodHex).1 =
      .ok false ∧
    (ApiResp.ok false : ApiResp Bool) ≠ .ok true := by
  decide

/-- Witness for the amended C6 on a one-user one-product state. -/
theorem c6_witness :
    ∃ st₁, likeProducts ⟨[uLiker], [pDemo]⟩ "eeeeeeeeeeeeeeeeeeeeeeee" prodHex =
        (.ok true, st₁) ∧
      (likeProducts st₁ "eeeeeeeeeeeeeeeeeeeeeeee" prodHex).1 = .ok false ∧
      findUser (likeProducts st₁ "eeeeeeeeeeeeeeeeeeeeeeee" prodHex).2.users
        "eeeeeeeeeeeeeeeeeeeeeeee" = some uLiker ∧
      findProduct (likeProducts st₁ "eeeeeeeeeeeeeeeeeeeeeeee" prodHex).2.products
        prodHex = some pDemo :=
  c6_toggle_roundtrip.1 ⟨[uLiker], [pDemo]⟩ "eeeeeeeeeeeeeeeeeeeeeeee" prodHex
    uLiker pDemo (by decide) (by decide) (by decide) (by decide) (by decide)

/-- Claim C8 (refutation): the counter save is application-level
read-modify-write, so the overlapping schedule read1-read2-write1-write2 from
the fresh state loses an update: both requests answer `isLiked = true` but the
final `likesCount` is 1, refuting "every interleaving ends with
`likesCount = 2`". -/
theorem c8_counterexample :
    [RaceAct.read1, RaceAct.read2, RaceAct.write1, RaceAct.write2] ∈ raceSchedules ∧
    (runRace "p" [RaceAct.read1, RaceAct.read2, RaceAct.write1, RaceAct.write2]
      freshRace).likes = 1 ∧
    (runRace "p" [RaceAct.read1, RaceAct.read2, RaceAct.write1, RaceAct.write2]
      freshRace).ret1 = some true ∧
    (runRace "p" [RaceAct.read1, RaceAct.read2, RaceAct.write1, RaceAct.write2]
      freshRace).ret2 = some true ∧
    ¬ (∀ acts ∈ raceSchedules, (runRace "p" acts freshRace).likes = 2) := by
  decide

/-- Claim C8 (amended): under every interleaving of two concurrent toggles by
distinct users on a fresh product both requests answer `isLiked = true`, but
the final `likesCount` is only known to be 1 or 2 — the serialized schedule
gives 2, while overlapping reads lose an update. -/
theorem c8_schedule_outcomes (acts : List RaceAct) (h : acts ∈ raceSchedules) :
    (runRace "p" acts freshRace).ret1 = some true ∧
    (runRace "p" acts freshRace).ret2 = some true ∧
    ((runRace "p" acts freshRace).likes = 1 ∨ (runRace "p" acts freshRace).likes = 2) ∧
    (acts = [RaceAct.read1, RaceAct.write1, RaceAct.read2, RaceAct.write2] →
      (runRace "p" acts freshRace).likes = 2) := by
  have hd : ∀ a ∈ raceSchedules, (runRace "p" a freshRace).ret1 = some true ∧
      (runRace "p" a freshRace).ret2 = some true ∧
      ((runRace "p" a freshRace).likes = 1 ∨ (runRace "p" a freshRace).likes = 2) ∧
      (a = [RaceAct.read1, RaceAct.write1, RaceAct.read2, RaceAct.write2] →
        (runRace "p" a freshRace).likes = 2) := by
    decide
  exact hd acts h

/-- Witness for the amended C8 at the serialized schedule. -/
theorem c8_witness :
    (runRace "p" [RaceAct.read1, RaceAct.write1, RaceAct.read2, RaceAct.write2]
      freshRace).ret1 = some true ∧
    (runRace "p" [RaceAct.read1, RaceAct.write1, RaceAct.read2, RaceAct.write2]
      freshRace).ret2 = some true ∧
    ((runRace "p" [RaceAct.read1, RaceAct.write1, RaceAct.read2, RaceAct.write2]
      freshRace).likes = 1 ∨
     (runRace "p" [RaceAct.read1, RaceAct.write1, RaceAct.read2, RaceAct.write2]
      freshRace).likes = 2) ∧
    ([RaceAct.read1, RaceAct.write1, RaceAct.read2, RaceAct.write2] =
        [RaceAct.read1, RaceAct.write1, RaceAct.read2, RaceAct.write2] →
      (runRace "p" [RaceAct.read1, RaceAct.write1, RaceAct.read2, RaceAct.write2]
        freshRace).likes = 2) :=
  c8_schedule_outcomes [RaceAct.read1, RaceAct.write1, RaceAct.read2, RaceAct.write2]
    (by decide)

/-- Claim C1 (refutation): searching "camera" from the origin returns the
newer-but-farther product before the older-but-nearer one, because the
explicit `sort({ createdAt: -1 })` of line 257 overrides the `$near` distance
order: the returned list is NOT sorted by non-decreasing distance. -/
theorem c1_counterexample :
    searchProducts meridianMeters [prodNearOld, prodFarNew] qSearchCam =
      .ok { products := [prodFarNew, prodNearOld], resultsCount := 2 } ∧
    meridianMeters { long := 0, lat := 0 } prodNearOld.pLoc <
      meridianMeters { long := 0, lat := 0 } prodFarNew.pLoc ∧
    ¬ List.Sorted
        (fun p q : Product =>
          meridianMeters { long := 0, lat := 0 } p.pLoc ≤
            meridianMeters { long := 0, lat := 0 } q.pLoc)
        [prodFarNew, prodNearOld] := by
  decide

/-- Claim C1 (amended): for every search with a keyword and a parsable
location, every returned item is active, matches the keyword
case-insensitively on name, description or category, and lies within
`maxDistance` kilometers (default 50, converted to meters) of the query
point; the list however is sorted by `createdAt` descending (newest first),
not by distance. -/
theorem c1_search_filter_and_creation_order
    (dst : GeoPoint → GeoPoint → ℚ) (st : Catalog) (q : SearchQuery)
    (s locStr : String) (la lo : ℚ)
    (hs : q.search = some s) (hl : q.loc = some locStr)
    (hp : parseLocQ locStr = some (la, lo)) :
    ∃ pr, searchProducts dst st q = .ok pr ∧
      (∀ p ∈ pr.products,
        p.status = "active" ∧ kwMatch s p = true ∧
        dst { long := lo, lat := la } p.pLoc ≤ qMul (q.maxDistance.getD 50) 1000) ∧
      List.Sorted byCreatedDesc pr.products := by
  have e : searchProducts dst st q =
      .ok ⟨(st.filter (searchMatch dst s ⟨lo, la⟩ (qMul (q.maxDistance.getD 50) 1000)
          q.category)).insertionSort byCreatedDesc,
        ((st.filter (searchMatch dst s ⟨lo, la⟩ (qMul (q.maxDistance.getD 50) 1000)
          q.category)).insertionSort byCreatedDesc).length⟩ := by
    simp only [searchProducts, hl, hp, hs]
  refine ⟨_, e, ?_, ?_⟩
  · intro p hpmem
    have hmem : p ∈ st.filter (searchMatch dst s ⟨lo, la⟩
        (qMul (q.maxDistance.getD 50) 1000) q.category) :=
      (List.perm_insertionSort byCreatedDesc _).mem_iff.mp hpmem
    obtain ⟨-, hmatch⟩ := List.mem_filter.mp hmem
    simp only [searchMatch, Bool.and_eq_true, decide_eq_true_eq, and_assoc] at hmatch
    obtain ⟨hkw, hstat, -, hdist⟩ := hmatch
    exact ⟨beq_iff_eq.mp hstat, hkw, hdist⟩
  · exact List.sorted_insertionSort byCreatedDesc _

/-- Witness for the amended C1 on a one-product catalog. -/
theorem c1_witness :
    ∃ pr, searchProducts meridianMeters [prodNearOld] qSearchCam = .ok pr ∧
      (∀ p ∈ pr.products,
        p.status = "active" ∧ kwMatch "camera" p = true ∧
        meridianMeters { long := 0, lat := 0 } p.pLoc ≤
          qMul (qSearchCam.maxDistance.getD 50) 1000) ∧
      List.Sorted byCreatedDesc pr.products :=
  c1_search_filter_and_creation_order meridianMeters [prodNearOld] qSearchCam
    "camera" "0,0" 0 0 rfl rfl (by decide)

/-- A digit is not whitespace. -/
theorem isDigit_not_ws {c : Char} (h : c.isDigit = true) : c.isWhitespace = false := by
  simp only [Char.isDigit, Bool.and_eq_true, decide_eq_true_eq] at h
  simp only [Char.isWhitespace, Bool.or_eq_false_iff, decide_eq_false_iff_not]
  refine ⟨⟨⟨?_, ?_⟩, ?_⟩, ?_⟩ <;> rintro rfl <;> revert h <;> decide

/-- The characters of a regex-validated unsigned number are digits or a dot,
never whitespace. -/
theorem not_ws_of_numFormatU {cs : List Char} (h : numFormatU cs = true) :
    ∀ c ∈ cs, c.isWhitespace = false := by
  intro c hc
  simp only [numFormatU, Bool.and_eq_true, decide_eq_true_eq] at h
  obtain ⟨-, hrest⟩ := h
  rw [← List.takeWhile_append_dropWhile (p := Char.isDigit) (l := cs)] at hc
  rcases List.mem_append.mp hc with h1 | h2
  · exact isDigit_not_ws (List.mem_takeWhile_imp h1)
  · split at hrest
    · rename_i heq
      rw [heq] at h2
      cases h2
    · rename_i r heq
      rw [heq] at h2
      rcases List.mem_cons.mp h2 with rfl | hr
      · decide
      · exact isDigit_not_ws (List.all_eq_true.mp hrest c hr)
    · cases hrest

/-- The characters of a regex-validated signed number are never whitespace. -/
theorem not_ws_of_numFormat {cs : List Char} (h : numFormat cs = true) :
    ∀ c ∈ cs, c.isWhitespace = false := by
  unfold numFormat at h
  by_cases hh : cs.head? = some '-'
  · rw [if_pos hh] at h
    cases cs with
    | nil => simp at hh
    | cons c t =>
      have hc : c = '-' := by simpa using hh
      subst hc
      intro x hx
      rcases List.mem_cons.mp hx with rfl | hxt
      · decide
      · exact not_ws_of_numFormatU h x hxt
  · rw [if_neg hh] at h
    exact not_ws_of_numFormatU h

/-- Trimming is the identity on whitespace-free character lists. -/
theorem not_ws_trimWs {cs : List Char} (h : ∀ c ∈ cs, c.isWhitespace = false) :
    trimWs cs = cs := by
  have h1 : cs.dropWhile Char.isWhitespace = cs := by
    cases cs with
    | nil => rfl
    | cons c t =>
      exact List.dropWhile_cons_of_neg
        (by simp [h c (List.mem_cons_self c t)])
  have h2 : cs.reverse.dropWhile Char.isWhitespace = cs.reverse := by
    cases hr : cs.reverse with
    | nil => rfl
    | cons c t =>
      have hcmem : c ∈ cs := by
        rw [← List.mem_reverse, hr]
        exact List.mem_cons_self c t
      exact List.dropWhile_cons_of_neg (by simp [h c hcmem])
  unfold trimWs
  rw [h1, h2, List.reverse_reverse]

/-- A regex-validated unsigned number parses. -/
theorem parseUnsignedQ_isSome {cs : List Char} (h : numFormatU cs = true) :
    (parseUnsignedQ cs).isSome = true := by
  simp only [numFormatU, Bool.and_eq_true, decide_eq_true_eq] at h
  obtain ⟨hne, -⟩ := h
  unfold parseUnsignedQ
  cases htw : cs.takeWhile Char.isDigit with
  | nil => exact absurd htw hne
  | cons d ds => simp

/-- A regex-validated signed number parses. -/
theorem parseNumQ_isSome {cs : List Char} (h : numFormat cs = true) :
    (parseNumQ cs).isSome = true := by
  unfold parseNumQ
  unfold numFormat at h
  by_cases hh : cs.head? = some '-'
  · rw [if_pos hh] at h ⊢
    rw [Option.isSome_map']
    exact parseUnsignedQ_isSome h
  · rw [if_neg hh] at h ⊢
    exact parseUnsignedQ_isSome h

/-- A location string matching the zod regex parses to a latitude/longitude
pair: schema validation guarantees the controller's `parseFloat` calls
succeed. -/
theorem locFormat_parse {s : String} (h : locFormat s = true) :
    ∃ la lo, parseLocQ s = some (la, lo) := by
  unfold locFormat at h
  unfold parseLocQ
  cases hsp : splitComma s.data with
  | nil =>
    rw [hsp] at h
    simp at h
  | cons a rest =>
    cases rest with
    | nil =>
      rw [hsp] at h
      simp at h
    | cons b rest2 =>
      cases rest2 with
      | cons x xs =>
        rw [hsp] at h
        simp at h
      | nil =>
        rw [hsp] at h
        dsimp only
        simp only [Bool.and_eq_true] at h
        obtain ⟨ha, hb⟩ := h
        rw [not_ws_trimWs (not_ws_of_numFormat ha),
          not_ws_trimWs (not_ws_of_numFormat hb)]
        obtain ⟨la, hla⟩ := Option.isSome_iff_exists.mp (parseNumQ_isSome ha)
        obtain ⟨lo, hlo⟩ := Option.isSome_iff_exists.mp (parseNumQ_isSome hb)
        rw [hla, hlo]
        exact ⟨la, lo, rfl⟩

/-- Claim C9: every search request that passes `searchSchema` validation gets
one response holding the entire filtered result set — no page or limit
parameter exists on the search path, no window is applied (every stored
matching product is in the returned list, and every returned product is a
stored one), and `resultsCount` is exactly the length of the returned list. -/
theorem c9_search_single_response
    (dst : GeoPoint → GeoPoint → ℚ) (st : Catalog) (q : SearchQuery)
    (hv : searchSchemaCheck q = true) :
    ∃ s locStr la lo pr,
      q.search = some s ∧ q.loc = some locStr ∧
      parseLocQ locStr = some (la, lo) ∧
      searchProducts dst st q = .ok pr ∧
      pr.resultsCount = pr.products.length ∧
      (∀ p ∈ st,
        searchMatch dst s ⟨lo, la⟩ (qMul (q.maxDistance.getD 50) 1000)
          q.category p = true →
        p ∈ pr.products) ∧
      (∀ p ∈ pr.products, p ∈ st) := by
  simp only [searchSchemaCheck, Bool.and_eq_true, and_assoc] at hv
  obtain ⟨hs', hl', -, -⟩ := hv
  cases hqs : q.search with
  | none =>
    rw [hqs] at hs'
    simp at hs'
  | some s =>
  cases hql : q.loc with
  | none =>
    rw [hql] at hl'
    simp at hl'
  | some locStr =>
  rw [hql] at hl'
  obtain ⟨la, lo, hp⟩ := locFormat_parse hl'
  have e : searchProducts dst st q =
      .ok ⟨(st.filter (searchMatch dst s ⟨lo, la⟩ (qMul (q.maxDistance.getD 50) 1000)
          q.category)).insertionSort byCreatedDesc,
        ((st.filter (searchMatch dst s ⟨lo, la⟩ (qMul (q.maxDistance.getD 50) 1000)
          q.category)).insertionSort byCreatedDesc).length⟩ := by
    simp only [searchProducts, hql, hp, hqs]
  refine ⟨s, locStr, la, lo, _, rfl, rfl, hp, e, rfl, ?_, ?_⟩
  · intro p hin hmatch
    exact (List.perm_insertionSort byCreatedDesc _).mem_iff.mpr
      (List.mem_filter.mpr ⟨hin, hmatch⟩)
  · intro p hmem
    exact (List.mem_filter.mp
      ((List.perm_insertionSort byCreatedDesc _).mem_iff.mp hmem)).1

/-- Witness for C9 on a validated query over a one-product catalog. -/
theorem c9_witness :
    ∃ s locStr la lo pr,
      qSearchCam.search = some s ∧ qSearchCam.loc = some locStr ∧
      parseLocQ locStr = some (la, lo) ∧
      searchProducts meridianMeters [prodNearOld] qSearchCam = .ok pr ∧
      pr.resultsCount = pr.products.length ∧
      (∀ p ∈ [prodNearOld],
        searchMatch meridianMeters s ⟨lo, la⟩
          (qMul (qSearchCam.maxDistance.getD 50) 1000) qSearchCam.category p = true →
        p ∈ pr.products) ∧
      (∀ p ∈ pr.products, p ∈ [prodNearOld]) :=
  c9_search_single_response meridianMeters [prodNearOld] qSearchCam (by decide)

/-- Claim C5 (refutation): the zod `searchSchema` accepts `loc = "1000,1000"`
even though 1000 is outside every valid latitude/longitude range — the regex
checks only the two-comma-separated-numbers format — and it accepts the
keyword `" "`, which is empty after trimming, because `min(1)` counts the
untrimmed length. -/
theorem c5_counterexample :
    searchSchemaCheck { search := some "camera", loc := some "1000,1000" } = true ∧
    ((90 : ℚ) < 1000 ∧ (180 : ℚ) < 1000) ∧
    searchSchemaCheck { search := some " ", loc := some "1,2" } = true := by
  decide

/-- Claim C5 (amended): the `validate(searchSchema)` middleware rejects, before
the controller runs, a request whose `loc` is missing or fails the
two-comma-separated-decimal-numbers regex, and one whose keyword is missing
or has length 0; it checks no coordinate range and does not trim the
keyword. -/
theorem c5_loc_and_keyword_checks (q : SearchQuery) :
    (q.loc = none → searchSchemaCheck q = false) ∧
    (∀ s, q.loc = some s → locFormat s = false → searchSchemaCheck q = false) ∧
    (q.search = none → searchSchemaCheck q = false) ∧
    (q.search = some "" → searchSchemaCheck q = false) := by
  refine ⟨?_, ?_, ?_, ?_⟩
  · intro h
    simp [searchSchemaCheck, h]
  · intro s hl hf
    simp [searchSchemaCheck, hl, hf]
  · intro h
    simp [searchSchemaCheck, h]
  · intro h
    simp [searchSchemaCheck, h]

/-- Witness for the amended C5 at concrete malformed queries. -/
theorem c5_witness :
    searchSchemaCheck { search := some "camera" } = false ∧
    searchSchemaCheck { search := some "camera", loc := some "abc" } = false ∧
    searchSchemaCheck { search := none, loc := some "1,2" } = false ∧
    searchSchemaCheck { search := some "", loc := some "1,2" } = false :=
  ⟨(c5_loc_and_keyword_checks _).1 rfl,
   (c5_loc_and_keyword_checks _).2.1 "abc" rfl (by decide),
   (c5_loc_and_keyword_checks _).2.2.1 rfl,
   (c5_loc_and_keyword_checks _).2.2.2 rfl⟩
